import Mathlib

/-!
Verification development for the usage-summary computation of
`kpi/serializers/v2/service_usage.py`.

The Python module defines two serializers:

* `ServiceUsageSerializer` — computes per-user (or per-organization)
  usage tallies (storage bytes, submission counts, NLP usage) split into
  all-time / current-year / current-month windows, where the window start
  dates are derived from the organization's subscription billing anchor.
* `AssetUsageSerializer` — the single-asset variant, which always uses
  calendar month/year starts.

The embedding below models Python `datetime.date` values as year/month/day
triples with explicit validity (Python raises `ValueError` from
`date.replace` when the resulting date is invalid, e.g. day 30 in
February, year 0, or year above 9999), models attribute access on the
serializer instance explicitly (Python raises `AttributeError` when an
attribute was never assigned — this matters because the source probes and
reads several attributes that are never assigned anywhere in the class),
and models the Django ORM query chains by the SQL they produce.
-/

namespace ServiceUsage

/-- Exceptions the translated Python code can raise: `AttributeError`
(reading an attribute that was never assigned), `ValueError` (invalid
date construction in `date.replace`), and `Http404` (raised explicitly
by the source's `except` handler). -/
inductive PyErr where
  | attributeError
  | valueError
  | http404
deriving Repr, DecidableEq

/-- A calendar date, modelling Python `datetime.date` field-wise. -/
structure Date where
  year : Nat
  month : Nat
  day : Nat
deriving Repr, DecidableEq

/-- Gregorian leap-year test, as in Python's `calendar.isleap`. -/
def isLeap (y : Nat) : Bool :=
  (y % 4 == 0 && y % 100 != 0) || y % 400 == 0

/-- Number of days in a month of a given year (months outside 1..12 give
31, but such months are excluded by `mkDate`). -/
def daysInMonth (y m : Nat) : Nat :=
  if m == 2 then (if isLeap y then 29 else 28)
  else if m == 4 || m == 6 || m == 9 || m == 11 then 30
  else 31

/-- Construct a date, validating exactly as Python's `datetime.date`
constructor does: year in 1..9999 (`MINYEAR`/`MAXYEAR`), month in 1..12,
day in 1..days-in-month. Returns `none` where Python raises `ValueError`. -/
def mkDate (y m d : Nat) : Option Date :=
  if 1 ≤ y ∧ y ≤ 9999 ∧ 1 ≤ m ∧ m ≤ 12 ∧ 1 ≤ d ∧ d ≤ daysInMonth y m then
    some ⟨y, m, d⟩
  else
    none

/-- A date that Python's `datetime.date` can represent. -/
def Date.Valid (dt : Date) : Prop :=
  1 ≤ dt.year ∧ dt.year ≤ 9999 ∧ 1 ≤ dt.month ∧ dt.month ≤ 12 ∧
    1 ≤ dt.day ∧ dt.day ≤ daysInMonth dt.year dt.month

instance (dt : Date) : Decidable dt.Valid := by
  unfold Date.Valid
  infer_instance

/-- Python `d.replace(day=x)`. -/
def Date.replaceDay (dt : Date) (d : Nat) : Option Date :=
  mkDate dt.year dt.month d

/-- Python `d.replace(day=x, month=y)`. -/
def Date.replaceDayMonth (dt : Date) (d m : Nat) : Option Date :=
  mkDate dt.year m d

/-- Python `d.replace(year=y)`. -/
def Date.replaceYear (dt : Date) (y : Nat) : Option Date :=
  mkDate y dt.month dt.day

/-- Python `d.replace(day=x, month=y, year=z)`. -/
def Date.replaceDayMonthYear (_dt : Date) (d m y : Nat) : Option Date :=
  mkDate y m d

/-- Python date comparison `a < b` (lexicographic on year, month, day). -/
def Date.blt (a b : Date) : Bool :=
  decide (a.year < b.year) ||
    (decide (a.year = b.year) &&
      (decide (a.month < b.month) ||
        (decide (a.month = b.month) && decide (a.day < b.day))))

/-- Python date comparison `a <= b` (lexicographic on year, month, day). -/
def Date.ble (a b : Date) : Bool :=
  decide (a.year < b.year) ||
    (decide (a.year = b.year) &&
      (decide (a.month < b.month) ||
        (decide (a.month = b.month) && decide (a.day ≤ b.day))))

/-- Lift a Python attribute read: reading an attribute that was never
assigned raises `AttributeError`. -/
def readAttr {α : Type} (a : Option α) : Except PyErr α :=
  match a with
  | some x => .ok x
  | none => .error .attributeError

/-- Lift a Python `date.replace` result: an invalid resulting date raises
`ValueError`. -/
def replaceE (o : Option Date) : Except PyErr Date :=
  match o with
  | some d => .ok d
  | none => .error .valueError

/-- The subscription-derived attributes that may live on a
`ServiceUsageSerializer` instance when the window-start helpers run.
Each field is one Python instance attribute; `none` means the attribute
was never assigned (so reading it raises `AttributeError`, and
`hasattr` returns false).

Note the source mentions five distinct attribute names:
`anchor_date` (probed by `hasattr` in `_get_current_month_start_date`
but assigned nowhere), `_anchor_date`, `_period_start` (both assigned by
`_get_organization_details`), `_current_period` (read by both
window-start helpers but assigned nowhere), and
`_subscription_interval` (assigned by `_get_organization_details`). -/
structure UsageState where
  anchor_date : Option Date
  u_anchor_date : Option Date
  u_period_start : Option Date
  u_current_period : Option Date
  u_subscription_interval : Option String
deriving Repr, DecidableEq

/-- The serializer state when `_get_organization_details` either was not
entered (no `organization_id`) or found no subscription: none of the five
subscription attributes has been assigned. -/
def noSubState : UsageState :=
  { anchor_date := none
    u_anchor_date := none
    u_period_start := none
    u_current_period := none
    u_subscription_interval := none }

/-- A subscription record as read by `_get_organization_details`:
`billing_cycle_anchor` and `current_period_start` are the `.date()`
parts of the corresponding djstripe datetime fields, and `interval` is
`items.get().price.recurring['interval']`. -/
structure Subscription where
  status : String
  billing_cycle_anchor : Date
  current_period_start : Date
  interval : String
deriving Repr, DecidableEq

/-- The attribute assignments the tail of `_get_organization_details`
performs when a subscription was found:
`self._anchor_date = subscription.billing_cycle_anchor.date()`,
`self._period_start = subscription.current_period_start.date()`,
`self._subscription_interval = ...['interval']`.
The attributes `anchor_date` and `_current_period` are NOT assigned
here (nor anywhere else in the class). -/
def applySubscription (sub : Subscription) : UsageState :=
  { anchor_date := none
    u_anchor_date := some sub.billing_cycle_anchor
    u_period_start := some sub.current_period_start
    u_subscription_interval := some sub.interval
    u_current_period := none }

/-- Serializer state as a function of the optional subscription found. -/
def stateOf (sub : Option Subscription) : UsageState :=
  match sub with
  | none => noSubState
  | some s => applySubscription s

/-- Translation of `ServiceUsageSerializer._get_current_month_start_date`:

```python
if not hasattr(self, 'anchor_date'):
    return self._now.replace(day=1)
if self._subscription_interval == 'month':
    return self._current_period
anchor_day = self._anchor_date.day
if self._now.day > anchor_day:
    return self._now.replace(day=anchor_day)
start_year = self._now.year
start_month = self._now.month - 1
if start_month == 0:
    start_month = 12
    start_year -= 1
return self._now.replace(day=anchor_day, month=start_month, year=start_year)
```

The `hasattr` probe targets `anchor_date`, while the attribute the class
ever assigns is `_anchor_date`. -/
def getCurrentMonthStartDate (s : UsageState) (now : Date) : Except PyErr Date :=
  if s.anchor_date.isNone then
    replaceE (now.replaceDay 1)
  else
    match s.u_subscription_interval with
    | none => .error .attributeError
    | some interval =>
      if interval = "month" then
        readAttr s.u_current_period
      else
        match s.u_anchor_date with
        | none => .error .attributeError
        | some anchor =>
          if now.day > anchor.day then
            replaceE (now.replaceDay anchor.day)
          else if now.month - 1 = 0 then
            replaceE (now.replaceDayMonthYear anchor.day 12 (now.year - 1))
          else
            replaceE (now.replaceDayMonthYear anchor.day (now.month - 1) now.year)

/-- Translation of `ServiceUsageSerializer._get_current_year_start_date`:

```python
if not hasattr(self, '_anchor_date'):
    return self._now.replace(day=1, month=1)
if self._subscription_interval == 'year':
    return self._current_period
if self._anchor_date.replace(year=self._now.year) > self._now:
    return self._anchor_date.replace(year=self._now.year - 1)
return self._anchor_date.replace(year=self._now.year)
```

Here the `hasattr` probe does target `_anchor_date`, so the subscription
branches are reachable; the `year` branch reads `_current_period`,
which is never assigned (`_get_organization_details` assigns
`_period_start`). -/
def getCurrentYearStartDate (s : UsageState) (now : Date) : Except PyErr Date :=
  if s.u_anchor_date.isNone then
    replaceE (now.replaceDayMonth 1 1)
  else
    match s.u_subscription_interval with
    | none => .error .attributeError
    | some interval =>
      if interval = "year" then
        readAttr s.u_current_period
      else
        match s.u_anchor_date with
        | none => .error .attributeError
        | some anchor =>
          match anchor.replaceYear now.year with
          | none => .error .valueError
          | some ay =>
            if now.blt ay then
              replaceE (anchor.replaceYear (now.year - 1))
            else
              .ok ay

/-- An `Asset` row, restricted to the fields the query uses:
`owner_id`, `asset_type`, and whether `_deployment_data` has the key
`'backend'` (the "is deployed" predicate of the source query). -/
structure AssetRec where
  pk : Nat
  uid : String
  owner_id : Nat
  asset_type : String
  has_backend : Bool
deriving Repr, DecidableEq

/-- A `KobocatXForm` row: linked to an asset by `kpi_asset_uid`, carrying
`attachment_storage_bytes`. -/
structure XFormRec where
  pk : Nat
  kpi_asset_uid : String
  attachment_storage_bytes : Int
deriving Repr, DecidableEq

/-- A `ReadOnlyKobocatDailyXFormSubmissionCounter` row: per-form per-day
submission counter. -/
structure DailyCounterRec where
  xform_id : Nat
  date : Date
  counter : Int
deriving Repr, DecidableEq

/-- An `NLPUsageCounter` row: per-asset per-day NLP usage counters. -/
structure NlpCounterRec where
  asset_id : Nat
  date : Date
  total_asr_seconds : Int
  total_mt_characters : Int
deriving Repr, DecidableEq

/-- A snapshot of the queried stores. -/
structure Db where
  assets : List AssetRec
  xforms : List XFormRec
  dailyCounters : List DailyCounterRec
  nlpCounters : List NlpCounterRec
deriving Repr, DecidableEq

/-- Django `date__range=[a, b]`: inclusive on both ends. -/
def dateInRange (a b d : Date) : Bool :=
  a.ble d && d.ble b

/-- The asset query of `_get_per_asset_usage`:
`Asset.objects.filter(owner__in=self._users, asset_type=ASSET_TYPE_SURVEY,
_deployment_data__has_key='backend')` (`ASSET_TYPE_SURVEY = 'survey'`).
The `.only(...)`/`.select_related(...)` projections do not change the row
set. -/
def userAssets (db : Db) (users : List Nat) : List AssetRec :=
  db.assets.filter fun a =>
    users.contains a.owner_id && a.asset_type == "survey" && a.has_backend

/-- The xform query:
`KobocatXForm.objects.filter(kpi_asset_uid__in=[a.uid for a in user_assets])`. -/
def xformsFor (db : Db) (uids : List String) : List XFormRec :=
  db.xforms.filter fun x => uids.contains x.kpi_asset_uid

/-- The storage aggregate:
`xforms.aggregate(bytes_sum=Coalesce(Sum('attachment_storage_bytes'), 0))`
followed by `... or 0` (SQL `SUM` over no rows is NULL, coalesced to 0). -/
def totalStorageBytes (xfs : List XFormRec) : Int :=
  (xfs.map XFormRec.attachment_storage_bytes).sum

/-- The three submission-count values of `_get_per_asset_usage`. The
source builds one queryset:

```python
ReadOnlyKobocatDailyXFormSubmissionCounter.objects.filter(xform__in=xforms)
  .annotate(all_time=Coalesce(Func(F('counter'), function='Sum'), 0))
  .filter(date__range=[year_start, now])
  .annotate(current_year=...)
  .filter(date__range=[month_start, now])
  .annotate(current_month=...)
  .values('all_time', 'current_year', 'current_month')
```

Django merges every `.filter(...)` of a chain into the single `WHERE`
clause of the one SQL query finally executed, and each annotation's
`SUM(counter)` (a `Func` rather than an `Aggregate`, so no `GROUP BY` is
added and the query returns exactly one row) is evaluated over that same
fully-filtered row set. Hence all three selected columns are the sum of
`counter` over the rows satisfying the conjunction of all three filters,
with `Coalesce(..., 0)` turning an empty sum into 0. -/
def submissionCountRow (db : Db) (xformIds : List Nat)
    (yearStart monthStart now : Date) : Int × Int × Int :=
  let rows := db.dailyCounters.filter fun r =>
    xformIds.contains r.xform_id &&
      dateInRange yearStart now r.date &&
      dateInRange monthStart now r.date
  let all_time := (rows.map DailyCounterRec.counter).sum
  let current_year := (rows.map DailyCounterRec.counter).sum
  let current_month := (rows.map DailyCounterRec.counter).sum
  (all_time, current_year, current_month)

/-- The six NLP usage values, selected by the analogous
`NLPUsageCounter.objects.filter(asset_id__in=user_assets)...` chain with
the same `.filter`/`.annotate` structure; the same single-query SQL
semantics applies, so each of the six `SUM` columns aggregates the rows
satisfying the conjunction of all the chained filters. -/
structure NlpUsageRow where
  asr_seconds_all_time : Int
  asr_seconds_current_year : Int
  asr_seconds_current_month : Int
  mt_characters_all_time : Int
  mt_characters_current_year : Int
  mt_characters_current_month : Int
deriving Repr, DecidableEq

/-- Evaluate the NLP usage query of `_get_per_asset_usage`. -/
def nlpUsageRow (db : Db) (assetIds : List Nat)
    (yearStart monthStart now : Date) : NlpUsageRow :=
  let rows := db.nlpCounters.filter fun r =>
    assetIds.contains r.asset_id &&
      dateInRange yearStart now r.date &&
      dateInRange monthStart now r.date
  { asr_seconds_all_time := (rows.map NlpCounterRec.total_asr_seconds).sum
    asr_seconds_current_year := (rows.map NlpCounterRec.total_asr_seconds).sum
    asr_seconds_current_month := (rows.map NlpCounterRec.total_asr_seconds).sum
    mt_characters_all_time := (rows.map NlpCounterRec.total_mt_characters).sum
    mt_characters_current_year := (rows.map NlpCounterRec.total_mt_characters).sum
    mt_characters_current_month := (rows.map NlpCounterRec.total_mt_characters).sum }

/-- The flat record `ServiceUsageSerializer` exposes after
`_get_per_asset_usage` has run. -/
structure UsageSummary where
  total_storage_bytes : Int
  submission_all_time : Int
  submission_current_year : Int
  submission_current_month : Int
  nlp : NlpUsageRow
  current_month_start : Date
  current_year_start : Date
deriving Repr, DecidableEq

/-- Translation of `ServiceUsageSerializer._get_organization_details`.
With no (or an empty) `organization_id`, the method returns at once,
leaving `self._users = [user]` and no subscription attributes. With a
non-empty `organization_id`, the first statement inside the `try` block
evaluates `self.request.user` — but the serializer class has no
attribute `request` (the request object lives in `self.context`, which
is how `_get_per_asset_usage` itself reads the query parameters), so
Python raises `AttributeError`. The `except ObjectDoesNotExist` clause
does not catch `AttributeError`, so it propagates: the organization
lookup, membership query, subscription query and the `raise Http404`
are all unreachable. (Even with `self.request` repaired,
`Organization.objects.filter(...)` returns a queryset and never raises
`ObjectDoesNotExist`, so the `Http404` branch would still be dead.) -/
def getOrganizationDetails (organization_id : Option String)
    (users : List Nat) : Except PyErr (List Nat × UsageState) :=
  match organization_id with
  | none => .ok (users, noSubState)
  | some s =>
    if s = "" then .ok (users, noSubState)
    else .error .attributeError

/-- Translation of `ServiceUsageSerializer.__init__` /
`_get_per_asset_usage(user)`: resolve the user set and subscription
state, enumerate deployed survey assets and their xforms, aggregate
storage, compute the window starts, then run the submission-count and
NLP queries. `now` is the serializer's `_now` date. -/
def computeUsage (db : Db) (requestingUser : Nat)
    (organization_id : Option String) (now : Date) :
    Except PyErr UsageSummary :=
  match getOrganizationDetails organization_id [requestingUser] with
  | .error e => .error e
  | .ok (users, st) =>
    let uas := userAssets db users
    let xfs := xformsFor db (uas.map AssetRec.uid)
    let storage := totalStorageBytes xfs
    match getCurrentMonthStartDate st now with
    | .error e => .error e
    | .ok month_start =>
      match getCurrentYearStartDate st now with
      | .error e => .error e
      | .ok year_start =>
        let sc := submissionCountRow db (xfs.map XFormRec.pk) year_start month_start now
        let nlp := nlpUsageRow db (uas.map AssetRec.pk) year_start month_start now
        .ok { total_storage_bytes := storage
              submission_all_time := sc.1
              submission_current_year := sc.2.1
              submission_current_month := sc.2.2
              nlp := nlp
              current_month_start := month_start
              current_year_start := year_start }

/-- Return value of `KobocatDeploymentBackend.nlp_tracking_data` and of
`AssetUsageSerializer._get_nlp_tracking_data`. -/
structure NlpTrackingData where
  total_nlp_asr_seconds : Int
  total_nlp_mt_characters : Int
deriving Repr, DecidableEq

/-- An asset as seen by `AssetUsageSerializer`: whether it has a
deployment, and the deployment's
`submission_count_since_date(start_date)` query capability (an external
store interface, kept abstract as a function of the optional start
date). -/
structure AUAsset where
  id : Nat
  has_deployment : Bool
  submission_count_since_date : Option Date → Int

/-- Translation of `AssetUsageSerializer._get_nlp_tracking_data`:
returns zeros for an undeployed asset, otherwise delegates to
`KobocatDeploymentBackend.nlp_tracking_data(asset_ids=[asset.id],
start_date=start_date)` (abstracted as `nlpStore`). -/
def getNlpTrackingData (nlpStore : List Nat → Option Date → NlpTrackingData)
    (asset : AUAsset) (start_date : Option Date) : NlpTrackingData :=
  if !asset.has_deployment then ⟨0, 0⟩
  else nlpStore [asset.id] start_date

/-- Translation of `AssetUsageSerializer.get_nlp_usage_current_month`:
`start_date = self._now.replace(day=1)`, then delegate. -/
def getNlpUsageCurrentMonth (nlpStore : List Nat → Option Date → NlpTrackingData)
    (asset : AUAsset) (now : Date) : Except PyErr NlpTrackingData :=
  match now.replaceDay 1 with
  | none => .error .valueError
  | some start_date => .ok (getNlpTrackingData nlpStore asset (some start_date))

/-- Translation of `AssetUsageSerializer.get_nlp_usage_current_year`:
`start_date = self._now.replace(day=1, month=1)`, then delegate. -/
def getNlpUsageCurrentYear (nlpStore : List Nat → Option Date → NlpTrackingData)
    (asset : AUAsset) (now : Date) : Except PyErr NlpTrackingData :=
  match now.replaceDayMonth 1 1 with
  | none => .error .valueError
  | some start_date => .ok (getNlpTrackingData nlpStore asset (some start_date))

/-- Translation of `AssetUsageSerializer.get_submission_count_current_month`:
0 for an undeployed asset, else
`asset.deployment.submission_count_since_date(self._now.replace(day=1))`. -/
def getSubmissionCountCurrentMonth (asset : AUAsset) (now : Date) :
    Except PyErr Int :=
  if !asset.has_deployment then .ok 0
  else
    match now.replaceDay 1 with
    | none => .error .valueError
    | some start_date => .ok (asset.submission_count_since_date (some start_date))

/-- Translation of `AssetUsageSerializer.get_submission_count_current_year`:
0 for an undeployed asset, else
`asset.deployment.submission_count_since_date(self._now.replace(day=1, month=1))`. -/
def getSubmissionCountCurrentYear (asset : AUAsset) (now : Date) :
    Except PyErr Int :=
  if !asset.has_deployment then .ok 0
  else
    match now.replaceDayMonth 1 1 with
    | none => .error .valueError
    | some start_date => .ok (asset.submission_count_since_date (some start_date))

theorem one_le_daysInMonth (y m : Nat) : 1 ≤ daysInMonth y m := by
  unfold daysInMonth
  split
  · split <;> omega
  · split <;> omega

theorem mkDate_day_one (y m : Nat) (h1 : 1 ≤ y) (h2 : y ≤ 9999)
    (h3 : 1 ≤ m) (h4 : m ≤ 12) : mkDate y m 1 = some ⟨y, m, 1⟩ := by
  unfold mkDate
  rw [if_pos]
  exact ⟨h1, h2, h3, h4, le_refl 1, one_le_daysInMonth y m⟩

theorem mkDate_eq_some {y m d : Nat} {x : Date} (h : mkDate y m d = some x) :
    x = ⟨y, m, d⟩ ∧ 1 ≤ y ∧ y ≤ 9999 ∧ 1 ≤ m ∧ m ≤ 12 ∧ 1 ≤ d ∧
      d ≤ daysInMonth y m := by
  unfold mkDate at h
  split at h
  · cases h
    exact ⟨rfl, by assumption⟩
  · cases h

theorem ble_iff (a b : Date) : a.ble b = true ↔
    (a.year < b.year ∨ (a.year = b.year ∧
      (a.month < b.month ∨ (a.month = b.month ∧ a.day ≤ b.day)))) := by
  simp [Date.ble]

theorem ble_of_blt_eq_false {a b : Date} (h : Date.blt a b = false) :
    Date.ble b a = true := by
  simp only [Date.blt, Bool.or_eq_false_iff, Bool.and_eq_false_iff,
    decide_eq_false_iff_not] at h
  simp only [Date.ble, Bool.or_eq_true, Bool.and_eq_true, decide_eq_true_eq]
  omega

theorem stateOf_anchor_date (sub : Option Subscription) :
    (stateOf sub).anchor_date = none := by
  cases sub <;> rfl

theorem noSub_month_start (now : Date) (h : now.Valid) :
    getCurrentMonthStartDate noSubState now = .ok ⟨now.year, now.month, 1⟩ := by
  obtain ⟨h1, h2, h3, h4, _, _⟩ := h
  show replaceE (mkDate now.year now.month 1) = .ok ⟨now.year, now.month, 1⟩
  rw [mkDate_day_one now.year now.month h1 h2 h3 h4]
  rfl

theorem noSub_year_start (now : Date) (h : now.Valid) :
    getCurrentYearStartDate noSubState now = .ok ⟨now.year, 1, 1⟩ := by
  obtain ⟨h1, h2, _, _, _, _⟩ := h
  show replaceE (mkDate now.year 1 1) = .ok ⟨now.year, 1, 1⟩
  rw [mkDate_day_one now.year 1 h1 h2 (le_refl 1) (by omega)]
  rfl

/-- C7: with no active subscription (none of the subscription attributes
assigned), the month-window start is `now` with day 1 and the year-window
start is `now` with day 1 and month 1, as the claim states. -/
theorem defaultWindows_calendar_start (now : Date) (h : now.Valid) :
    getCurrentMonthStartDate noSubState now = .ok ⟨now.year, now.month, 1⟩ ∧
    getCurrentYearStartDate noSubState now = .ok ⟨now.year, 1, 1⟩ :=
  ⟨noSub_month_start now h, noSub_year_start now h⟩

/-- Witness for C7 at `now = 2024-03-15`: the month window starts
2024-03-01 and the year window starts 2024-01-01. -/
theorem defaultWindows_calendar_start_witness :
    getCurrentMonthStartDate noSubState ⟨2024, 3, 15⟩ = .ok ⟨2024, 3, 1⟩ ∧
    getCurrentYearStartDate noSubState ⟨2024, 3, 15⟩ = .ok ⟨2024, 1, 1⟩ :=
  defaultWindows_calendar_start ⟨2024, 3, 15⟩ (by decide)

/-- C1: evaluation of `_get_current_month_start_date` at the claim's own
example input — `now = 2024-03-15`, active yearly subscription with
anchor day 20 — returns 2024-03-01, not the 2024-02-20 the claim
requires. The subscription branch of the function is unreachable: it
probes `hasattr(self, 'anchor_date')`, but the attribute
`_get_organization_details` assigns is `_anchor_date`, so the
calendar-month default is returned for every subscription. -/
theorem monthStart_yearly_subscription_code_eval :
    getCurrentMonthStartDate
        (applySubscription ⟨"active", ⟨2023, 3, 20⟩, ⟨2023, 3, 20⟩, "year"⟩)
        ⟨2024, 3, 15⟩ = .ok ⟨2024, 3, 1⟩ ∧
    (⟨2024, 3, 1⟩ : Date) ≠ ⟨2024, 2, 20⟩ := by
  constructor
  · rfl
  · decide

/-- C2: evaluation of `_get_current_month_start_date` for
`now = 2024-03-15` and an active monthly subscription with
`current_period_start = 2024-03-10` returns 2024-03-01 rather than the
claim's verbatim `current_period_start`, because of the same dead
`hasattr(self, 'anchor_date')` probe (and, were that branch reachable,
the read of the never-assigned `_current_period` attribute would raise
`AttributeError`). -/
theorem monthStart_monthly_subscription_code_eval :
    getCurrentMonthStartDate
        (applySubscription ⟨"active", ⟨2024, 2, 10⟩, ⟨2024, 3, 10⟩, "month"⟩)
        ⟨2024, 3, 15⟩ = .ok ⟨2024, 3, 1⟩ ∧
    (⟨2024, 3, 1⟩ : Date) ≠ ⟨2024, 3, 10⟩ := by
  constructor
  · rfl
  · decide

/-- C3: evaluation of `_get_current_year_start_date` for
`now = 2024-03-15` and an active yearly subscription with
`current_period_start = 2023-03-20` raises `AttributeError` instead of
returning the period start: the `year` branch reads
`self._current_period`, but the attribute `_get_organization_details`
assigns is `_period_start`, so the read fails. -/
theorem yearStart_yearly_subscription_code_eval :
    getCurrentYearStartDate
        (applySubscription ⟨"active", ⟨2023, 3, 20⟩, ⟨2023, 3, 20⟩, "year"⟩)
        ⟨2024, 3, 15⟩ = .error .attributeError := by
  rfl

/-- C4: evaluation of the aggregation at a snapshot with one deployed
survey asset, one linked xform, and two daily submission counter rows —
5 submissions on 2023-05-01 (before the year window) and 7 on 2024-03-10
(inside the month window) — plus the analogous two NLP counter rows, for
`now = 2024-03-15`. The claim requires `all_time = 5 + 7 = 12` as an
unfiltered independent sum; the code returns `all_time = 7`, because
every `.filter` of the chain narrows the single queryset that all three
annotations aggregate, so all three values equal the sum over the
intersection of the windows. -/
theorem submissionSums_collapse_code_eval :
    computeUsage
        ⟨[⟨1, "a1", 7, "survey", true⟩], [⟨10, "a1", 100⟩],
          [⟨10, ⟨2023, 5, 1⟩, 5⟩, ⟨10, ⟨2024, 3, 10⟩, 7⟩],
          [⟨1, ⟨2023, 5, 1⟩, 11, 13⟩, ⟨1, ⟨2024, 3, 10⟩, 2, 3⟩]⟩
        7 none ⟨2024, 3, 15⟩ =
      .ok { total_storage_bytes := 100
            submission_all_time := 7
            submission_current_year := 7
            submission_current_month := 7
            nlp := ⟨2, 2, 2, 3, 3, 3⟩
            current_month_start := ⟨2024, 3, 1⟩
            current_year_start := ⟨2024, 1, 1⟩ } ∧
    (7 : Int) ≠ 5 + 7 := by
  constructor
  · rfl
  · decide

/-- C5: every call that passes a non-empty `organization_id` — in
particular one naming no existing organization — fails with
`AttributeError`, never with the `Http404` the claim requires: the first
statement of the `try` block in `_get_organization_details` evaluates
`self.request.user`, an attribute the serializer does not have, and the
`except ObjectDoesNotExist` handler does not catch `AttributeError`. -/
theorem orgCall_raises_attributeError (db : Db) (u : Nat) (s : String)
    (now : Date) (h : s ≠ "") :
    computeUsage db u (some s) now = .error .attributeError := by
  have hod : getOrganizationDetails (some s) [u] = .error .attributeError := by
    show (if s = "" then Except.ok ([u], noSubState)
        else Except.error PyErr.attributeError) = Except.error PyErr.attributeError
    rw [if_neg h]
  unfold computeUsage
  rw [hod]

/-- Witness for C5: a concrete call with an organization id that matches
no organization in an empty store fails with `AttributeError`. -/
theorem orgCall_raises_attributeError_witness :
    computeUsage ⟨[], [], [], []⟩ 1 (some "nonexistent-org") ⟨2024, 3, 15⟩ =
      .error .attributeError :=
  orgCall_raises_attributeError ⟨[], [], [], []⟩ 1 "nonexistent-org"
    ⟨2024, 3, 15⟩ (by decide)

/-- C6 (counterexample to the claim as stated): a requesting user who
owns zero deployed survey assets, calling with an `organization_id`,
does not get a successful all-zero summary — the call raises
`AttributeError` (the `self.request.user` read in
`_get_organization_details`). -/
theorem zeroAssets_orgCall_fails :
    computeUsage ⟨[], [], [], []⟩ 1 (some "org1") ⟨2024, 3, 15⟩ =
      .error .attributeError := by
  rfl

theorem submissionCountRow_nil (db : Db) (ys ms now : Date) :
    submissionCountRow db [] ys ms now = (0, 0, 0) := by
  unfold submissionCountRow
  have hrows : db.dailyCounters.filter (fun r =>
      ([] : List Nat).contains r.xform_id &&
        dateInRange ys now r.date && dateInRange ms now r.date) = [] := by
    rw [List.filter_eq_nil_iff]
    intro a _
    simp [List.contains, List.elem]
  rw [hrows]
  rfl

theorem nlpUsageRow_nil (db : Db) (ys ms now : Date) :
    nlpUsageRow db [] ys ms now = ⟨0, 0, 0, 0, 0, 0⟩ := by
  unfold nlpUsageRow
  have hrows : db.nlpCounters.filter (fun r =>
      ([] : List Nat).contains r.asset_id &&
        dateInRange ys now r.date && dateInRange ms now r.date) = [] := by
    rw [List.filter_eq_nil_iff]
    intro a _
    simp [List.contains, List.elem]
  rw [hrows]
  rfl

theorem xformsFor_nil (db : Db) : xformsFor db [] = [] := by
  unfold xformsFor
  rw [List.filter_eq_nil_iff]
  intro a _
  simp [List.contains, List.elem]

/-- C6 (amended): for every requesting user who owns zero deployed
survey-type assets, a call that passes no `organization_id` succeeds and
returns an all-zero summary, with the window starts computed by the
default (no-subscription) rule. -/
theorem zeroAssets_selfCall_all_zero (db : Db) (u : Nat) (now : Date)
    (hnow : now.Valid)
    (h : ∀ a ∈ db.assets,
      ¬(a.owner_id = u ∧ a.asset_type = "survey" ∧ a.has_backend = true)) :
    computeUsage db u none now = .ok
      { total_storage_bytes := 0
        submission_all_time := 0
        submission_current_year := 0
        submission_current_month := 0
        nlp := ⟨0, 0, 0, 0, 0, 0⟩
        current_month_start := ⟨now.year, now.month, 1⟩
        current_year_start := ⟨now.year, 1, 1⟩ } := by
  have hua : userAssets db [u] = [] := by
    unfold userAssets
    rw [List.filter_eq_nil_iff]
    intro a ha
    have hh := h a ha
    simp only [Bool.and_eq_true, beq_iff_eq, List.contains, List.elem_eq_mem,
      decide_eq_true_eq, List.mem_singleton]
    intro hc
    exact hh ⟨hc.1.1, hc.1.2, hc.2⟩
  unfold computeUsage
  rw [show getOrganizationDetails none [u] = .ok ([u], noSubState) from rfl]
  dsimp only
  rw [hua]
  simp only [List.map_nil]
  rw [xformsFor_nil]
  rw [noSub_month_start now hnow]
  dsimp only
  rw [noSub_year_start now hnow]
  dsimp only
  simp only [List.map_nil]
  rw [submissionCountRow_nil, nlpUsageRow_nil]
  rfl

/-- Witness for C6 (amended): a user owning no deployed survey assets
(the only asset in the store belongs to another user) gets the all-zero
summary with calendar-default windows. -/
theorem zeroAssets_selfCall_all_zero_witness :
    computeUsage ⟨[⟨1, "a", 2, "survey", true⟩], [], [], []⟩ 1 none
        ⟨2024, 3, 15⟩ = .ok
      { total_storage_bytes := 0
        submission_all_time := 0
        submission_current_year := 0
        submission_current_month := 0
        nlp := ⟨0, 0, 0, 0, 0, 0⟩
        current_month_start := ⟨2024, 3, 1⟩
        current_year_start := ⟨2024, 1, 1⟩ } :=
  zeroAssets_selfCall_all_zero ⟨[⟨1, "a", 2, "survey", true⟩], [], [], []⟩ 1
    ⟨2024, 3, 15⟩ (by decide) (by decide)

/-- C8: whatever optional subscription `_get_organization_details` found
(the serializer state being exactly what its assignments produce), any
date the two window-start helpers successfully return is no later than
`now`. -/
theorem windowStarts_le_now (sub : Option Subscription) (now d : Date)
    (h : now.Valid) :
    (getCurrentMonthStartDate (stateOf sub) now = .ok d → d.ble now = true) ∧
    (getCurrentYearStartDate (stateOf sub) now = .ok d → d.ble now = true) := by
  obtain ⟨h1, h2, h3, h4, h5, h6⟩ := h
  constructor
  · intro he
    have hm : getCurrentMonthStartDate (stateOf sub) now =
        replaceE (mkDate now.year now.month 1) := by
      unfold getCurrentMonthStartDate
      rw [stateOf_anchor_date]
      rfl
    rw [hm, mkDate_day_one now.year now.month h1 h2 h3 h4] at he
    simp only [replaceE] at he
    injection he with h7
    subst h7
    rw [ble_iff]
    dsimp only
    omega
  · intro he
    cases sub with
    | none =>
      rw [show stateOf none = noSubState from rfl,
        noSub_year_start now ⟨h1, h2, h3, h4, h5, h6⟩] at he
      injection he with h7
      subst h7
      rw [ble_iff]
      dsimp only
      omega
    | some s =>
      unfold getCurrentYearStartDate at he
      simp only [stateOf, applySubscription, Option.isNone_some,
        Bool.false_eq_true, if_false] at he
      by_cases hi : s.interval = "year"
      · rw [if_pos hi] at he
        simp [readAttr] at he
      · rw [if_neg hi] at he
        cases hm : s.billing_cycle_anchor.replaceYear now.year with
        | none =>
          rw [hm] at he
          simp at he
        | some ay =>
          rw [hm] at he
          dsimp only at he
          unfold Date.replaceYear at hm
          obtain ⟨hay, hb1, hb2, hb3, hb4, hb5, hb6⟩ := mkDate_eq_some hm
          by_cases hb : now.blt ay = true
          · rw [if_pos hb] at he
            unfold Date.replaceYear at he
            cases hm2 : mkDate (now.year - 1) s.billing_cycle_anchor.month
                s.billing_cycle_anchor.day with
            | none =>
              rw [hm2] at he
              simp [replaceE] at he
            | some y2 =>
              rw [hm2] at he
              simp only [replaceE] at he
              injection he with h7
              subst h7
              obtain ⟨hy2, hc1, hc2, hc3, hc4, hc5, hc6⟩ := mkDate_eq_some hm2
              subst hy2
              subst hay
              rw [ble_iff]
              dsimp only
              omega
          · rw [if_neg hb] at he
            injection he with h7
            subst h7
            exact ble_of_blt_eq_false (Bool.not_eq_true _ ▸ hb)

/-- Witness for C8 with no subscription at `now = 2024-03-15`: the month
window start 2024-03-01 is no later than `now`. -/
theorem windowStarts_le_now_witness :
    Date.ble ⟨2024, 3, 1⟩ ⟨2024, 3, 15⟩ = true :=
  (windowStarts_le_now none ⟨2024, 3, 15⟩ ⟨2024, 3, 1⟩ (by decide)).1 (by rfl)

/-- C10: the single-asset serializer's month and year windows are always
the calendar month start (`now` with day 1) and calendar year start
(`now` with day 1, month 1); the four getters take no subscription input
at all, so billing-cycle anchoring is never applied. -/
theorem assetUsage_windows_calendar
    (nlpStore : List Nat → Option Date → NlpTrackingData) (asset : AUAsset)
    (now : Date) (h : now.Valid) :
    getNlpUsageCurrentMonth nlpStore asset now =
      .ok (getNlpTrackingData nlpStore asset (some ⟨now.year, now.month, 1⟩)) ∧
    getNlpUsageCurrentYear nlpStore asset now =
      .ok (getNlpTrackingData nlpStore asset (some ⟨now.year, 1, 1⟩)) ∧
    getSubmissionCountCurrentMonth asset now =
      .ok (if asset.has_deployment then
        asset.submission_count_since_date (some ⟨now.year, now.month, 1⟩)
      else 0) ∧
    getSubmissionCountCurrentYear asset now =
      .ok (if asset.has_deployment then
        asset.submission_count_since_date (some ⟨now.year, 1, 1⟩)
      else 0) := by
  obtain ⟨h1, h2, h3, h4, h5, h6⟩ := h
  have hm : now.replaceDay 1 = some ⟨now.year, now.month, 1⟩ := by
    unfold Date.replaceDay
    exact mkDate_day_one now.year now.month h1 h2 h3 h4
  have hy : now.replaceDayMonth 1 1 = some ⟨now.year, 1, 1⟩ := by
    unfold Date.replaceDayMonth
    exact mkDate_day_one now.year 1 h1 h2 (le_refl 1) (by omega)
  refine ⟨?_, ?_, ?_, ?_⟩
  · unfold getNlpUsageCurrentMonth
    rw [hm]
  · unfold getNlpUsageCurrentYear
    rw [hy]
  · unfold getSubmissionCountCurrentMonth
    cases hd : asset.has_deployment with
    | false => simp [hd]
    | true =>
      simp only [hd, Bool.not_true, Bool.false_eq_true, if_false, if_true]
      rw [hm]
  · unfold getSubmissionCountCurrentYear
    cases hd : asset.has_deployment with
    | false => simp [hd]
    | true =>
      simp only [hd, Bool.not_true, Bool.false_eq_true, if_false, if_true]
      rw [hy]

/-- Witness for C10: a deployed asset whose deployment reports 9
submissions from any start date yields 9 for the current month, queried
from 2024-03-01. -/
theorem assetUsage_windows_calendar_witness :
    getSubmissionCountCurrentMonth ⟨1, true, fun _ => 9⟩ ⟨2024, 3, 15⟩ =
      .ok 9 :=
  (assetUsage_windows_calendar (fun _ _ => ⟨0, 0⟩) ⟨1, true, fun _ => 9⟩
    ⟨2024, 3, 15⟩ (by decide)).2.2.1

/-- C9: `computeUsage` is a pure function of the queried store snapshot,
the requesting user, the organization id and `now`: two calls over
identical snapshots and identical inputs return identical summaries. -/
theorem computeUsage_deterministic (db1 db2 : Db) (u : Nat)
    (o : Option String) (now : Date) (h : db1 = db2) :
    computeUsage db1 u o now = computeUsage db2 u o now := by
  rw [h]

/-- Witness for C9 at a concrete snapshot and input. -/
theorem computeUsage_deterministic_witness :
    computeUsage ⟨[⟨1, "a1", 7, "survey", true⟩], [⟨10, "a1", 100⟩], [], []⟩
        7 none ⟨2024, 3, 15⟩ =
      computeUsage ⟨[⟨1, "a1", 7, "survey", true⟩], [⟨10, "a1", 100⟩], [], []⟩
        7 none ⟨2024, 3, 15⟩ :=
  computeUsage_deterministic _ _ 7 none ⟨2024, 3, 15⟩ rfl

end ServiceUsage
